import Mathlib

/-!
# Verification of the FromVulkanToDirectX12 renderers

Shallow embedding of the frame-loop synchronization, GPU resource-upload
staging and mip-map generation logic of the repository's renderers
(`mainDX12.cpp`, i.e. the complete DirectX12 renderer, together with the
Vulkan renderer and the second DirectX12 renderer found in the source
bundle), plus theorems settling the specification claims about them.

All machine integers of the source (`uint32_t`, `UINT64`, ...) stay far
below their overflow bounds in every scenario considered here, so they are
modelled as `Nat`.
-/

namespace FromVkToDX12

/-! ## DX12 renderer frame-loop state (mainDX12.cpp)

Globals of the complete DX12 renderer:
* `constexpr uint32_t bufferingCount = 3;`
* `uint32_t swapchainFrameIndex = 0u;`
* `std::array<uint32_t, bufferingCount> swapchainFenceValues;` — global,
  hence zero-initialized.
The swapchain fence itself is created with initial completed value 0
(`device->CreateFence(0, ...)`).
-/

/-- `constexpr uint32_t bufferingCount = 3;` -/
def bufferingCount : Nat := 3

/-- The CPU-side swapchain synchronization state of the DX12 renderer:
`swapchainFenceValues` (the `std::array<uint32_t, 3>`, one stored fence
value per back buffer, modelled as three fields) and
`swapchainFrameIndex`. -/
structure RenderState where
  fv0 : Nat
  fv1 : Nat
  fv2 : Nat
  frameIndex : Nat
deriving DecidableEq, Repr

/-- `swapchainFenceValues[j]` (out-of-range reads never occur in the
renderer: indices come from `GetCurrentBackBufferIndex`, which is `< 3`). -/
def RenderState.fv (s : RenderState) : Nat → Nat
  | 0 => s.fv0
  | 1 => s.fv1
  | 2 => s.fv2
  | _ + 3 => 0

/-- `swapchainFenceValues[j] = v`. -/
def RenderState.setFv (s : RenderState) (j v : Nat) : RenderState :=
  match j with
  | 0 => { s with fv0 := v }
  | 1 => { s with fv1 := v }
  | 2 => { s with fv2 := v }
  | _ + 3 => s

/-- Initial state: `swapchainFenceValues` zero-initialized,
`swapchainFrameIndex = 0`. -/
def initRenderState : RenderState :=
  { fv0 := 0, fv1 := 0, fv2 := 0, frameIndex := 0 }

/-- Result of the `Swapchain Begin` block (mainDX12.cpp, `main`, Render
section): `guard` is the `currFenceValue` the block requires the fence to
have reached before proceeding, and `waited` is `some guard` exactly when
`WaitForSingleObjectEx` is actually reached, i.e. when
`swapchainFence->GetCompletedValue() < currFenceValue`. -/
structure BeginStep where
  waited : Option Nat
  guard : Nat
  state : RenderState
deriving DecidableEq, Repr

/-- Embedding of the `Swapchain Begin` block:

```cpp
const UINT32 prevFenceValue = swapchainFenceValues[swapchainFrameIndex];
swapchainFrameIndex = swapchain->GetCurrentBackBufferIndex();
const UINT32 currFenceValue = swapchainFenceValues[swapchainFrameIndex];
if (swapchainFence->GetCompletedValue() < currFenceValue)
  { ... WaitForSingleObjectEx(swapchainFenceEvent, INFINITE, FALSE); }
swapchainFenceValues[swapchainFrameIndex] = prevFenceValue + 1;
```

`idx` is the back-buffer index returned by `GetCurrentBackBufferIndex`,
`completed` the fence value returned by `GetCompletedValue`. -/
def swapchainBegin (s : RenderState) (idx completed : Nat) : BeginStep :=
  let prevFenceValue := s.fv s.frameIndex
  let currFenceValue := s.fv idx
  { waited := if completed < currFenceValue then some currFenceValue else none
    guard := currFenceValue
    state := { (s.setFv idx (prevFenceValue + 1)) with frameIndex := idx } }

/-- State after `k` frame iterations when the presentation engine returns
back-buffer indices round-robin (iteration `k+1` receives index `k % 3`)
and `comp k` is the fence completed value observed at iteration `k`.
The state evolution does not depend on `comp`: the wait never mutates CPU
state. -/
def stateAfter (comp : Nat → Nat) : Nat → RenderState
  | 0 => initRenderState
  | k + 1 => (swapchainBegin (stateAfter comp k) (k % 3) (comp (k + 1))).state

/-- The `Swapchain Begin` step executed at iteration `k ≥ 1` of the
round-robin run. -/
def beginStepAt (comp : Nat → Nat) (k : Nat) : BeginStep :=
  swapchainBegin (stateAfter comp (k - 1)) ((k - 1) % 3) (comp k)

/-- The value signaled by the `Swapchain End` block at the end of iteration
`k ≥ 1`:
`graphicsQueue->Signal(swapchainFence.Get(), swapchainFenceValues[swapchainFrameIndex])`,
read from the post-`Begin` state. -/
def signalValueAt (comp : Nat → Nat) (k : Nat) : Nat :=
  (stateAfter comp k).fv ((k - 1) % 3)

/-- Closed form for `swapchainFenceValues` slot `j` after `k` round-robin
iterations: the number of the most recent iteration among `1..k` that used
slot `j` (`0` if slot `j` is still unused). -/
def fvSpec (k j : Nat) : Nat :=
  if j + 1 ≤ k then k - (k - (j + 1)) % 3 else 0

theorem fvSpec_lastUse {k : Nat} (hk : 1 ≤ k) : fvSpec k ((k - 1) % 3) = k := by
  unfold fvSpec
  split
  · omega
  · omega

/-- The state after `k` round-robin iterations, in closed form. -/
theorem stateAfter_eq (comp : Nat → Nat) (k : Nat) :
    stateAfter comp k =
      { fv0 := fvSpec k 0, fv1 := fvSpec k 1, fv2 := fvSpec k 2
        frameIndex := if k = 0 then 0 else (k - 1) % 3 } := by
  induction k with
  | zero => rfl
  | succ k ih =>
    rw [stateAfter, ih]
    rcases Nat.eq_zero_or_pos k with hk0 | hkpos
    · subst hk0; rfl
    · have hprev : fvSpec k ((k - 1) % 3) = k := fvSpec_lastUse hkpos
      have h3 : k % 3 = 0 ∧ (k - 1) % 3 = 2 ∨ k % 3 = 1 ∧ (k - 1) % 3 = 0 ∨
          k % 3 = 2 ∧ (k - 1) % 3 = 1 := by omega
      simp only [if_neg (by omega : ¬ k = 0), if_neg (by omega : ¬ k + 1 = 0),
        Nat.add_sub_cancel]
      rcases h3 with ⟨h, h'⟩ | ⟨h, h'⟩ | ⟨h, h'⟩ <;>
        · simp only [swapchainBegin, h, h', hprev, RenderState.fv, RenderState.setFv,
            RenderState.mk.injEq, and_true]
          unfold fvSpec
          refine ⟨?_, ?_, ?_⟩ <;> (repeat' split) <;> omega

theorem signalValueAt_eq (comp : Nat → Nat) {k : Nat} (hk : 1 ≤ k) :
    signalValueAt comp k = k := by
  have h3 : (k - 1) % 3 = 0 ∨ (k - 1) % 3 = 1 ∨ (k - 1) % 3 = 2 := by omega
  rw [signalValueAt, stateAfter_eq]
  rcases h3 with h | h | h <;>
    · rw [h]
      simp only [RenderState.fv]
      unfold fvSpec
      split <;> omega

theorem beginStepAt_guard (comp : Nat → Nat) {k : Nat} (hk : 1 ≤ k) :
    (beginStepAt comp k).guard = fvSpec (k - 1) ((k - 1) % 3) := by
  have h3 : (k - 1) % 3 = 0 ∨ (k - 1) % 3 = 1 ∨ (k - 1) % 3 = 2 := by omega
  rw [beginStepAt, stateAfter_eq]
  rcases h3 with h | h | h <;> · rw [h]; simp [swapchainBegin, RenderState.fv]

theorem beginStepAt_waited (comp : Nat → Nat) (k : Nat) :
    (beginStepAt comp k).waited =
      if comp k < (beginStepAt comp k).guard then some (beginStepAt comp k).guard
      else none := rfl

/-- **C1**: In the DX12 renderer (bufferingCount = 3, all per-slot swapchain
fence values initially 0), for every run of sequential frame iterations in
which the presentation engine returns back-buffer indices round-robin and
for every fence-completion sequence `comp`: iterations 1 through 3 never
reach the swapchain-fence wait (their wait guard is 0), and every iteration
`k ≥ 4` waits exactly until the fence value signaled at the end of iteration
`k - 3` has been reached (its wait guard equals that signal value, and any
actual block is on exactly that value). -/
theorem swapchainBegin_tripleBuffering_backpressure (comp : Nat → Nat) (k : Nat)
    (hk : 1 ≤ k) :
    (k ≤ 3 → (beginStepAt comp k).guard = 0 ∧ (beginStepAt comp k).waited = none) ∧
    (4 ≤ k → (beginStepAt comp k).guard = signalValueAt comp (k - 3) ∧
      ∀ v, (beginStepAt comp k).waited = some v → v = signalValueAt comp (k - 3)) := by
  constructor
  · intro hk3
    have hg : (beginStepAt comp k).guard = 0 := by
      rw [beginStepAt_guard comp hk]
      unfold fvSpec
      split <;> omega
    refine ⟨hg, ?_⟩
    rw [beginStepAt_waited, hg]
    simp
  · intro hk4
    have hg : (beginStepAt comp k).guard = k - 3 := by
      rw [beginStepAt_guard comp hk]
      unfold fvSpec
      split <;> omega
    have hs : signalValueAt comp (k - 3) = k - 3 := signalValueAt_eq comp (by omega)
    refine ⟨by rw [hg, hs], ?_⟩
    intro v hv
    rw [beginStepAt_waited] at hv
    split at hv
    · injection hv with hv'
      rw [← hv', hg, hs]
    · simp at hv

/-- Witness for C1: at iteration 4 of the concrete run (all completed
values 0), the wait guard equals the value signaled at the end of
iteration 1, and the block that occurs is on exactly that value. -/
theorem swapchainBegin_tripleBuffering_backpressure_witness :
    (beginStepAt (fun _ => 0) 4).guard = signalValueAt (fun _ => 0) 1 ∧
      (beginStepAt (fun _ => 0) 4).waited = some (signalValueAt (fun _ => 0) 1) := by
  have h := (swapchainBegin_tripleBuffering_backpressure (fun _ => 0) 4
    (by decide)).2 (by decide)
  exact ⟨h.1, by decide⟩

/-! ## One full iteration of the Render block as an event trace

mainDX12.cpp, `main`, Render section: `Swapchain Begin` (acquire index,
wait on that image's stored fence value, store the new fence value), then
`Register Commands` (`cmdAlloc->Reset()`, `cmd->Reset(...)`, record, close,
`ExecuteCommandLists`), then `Swapchain End` (`Present`, `Signal`).
-/

/-- The externally visible actions of one Render-block iteration, in
program order. -/
inductive RenderEvent where
  | acquireImage (idx : Nat)
  | fenceWaitObserved (idx : Nat) (value : Nat)
  | storeFenceValue (idx : Nat) (value : Nat)
  | resetCommandAlloc (idx : Nat)
  | resetCommandList (idx : Nat)
  | recordDraw (idx : Nat)
  | closeCommandList (idx : Nat)
  | executeCommandList (idx : Nat)
  | present
  | signalFence (value : Nat)
deriving DecidableEq, Repr

/-- Result of one Render-block iteration: its event trace, the new CPU
state, and the fence completed value the CPU has observed once the
`Swapchain Begin` block has passed (after a wait, the fence has reached at
least `currFenceValue`). -/
structure FrameIteration where
  trace : List RenderEvent
  state : RenderState
  observedCompleted : Nat
deriving DecidableEq, Repr

/-- Embedding of one full Render-block iteration. `idx` is the index
returned by `swapchain->GetCurrentBackBufferIndex()` for this frame,
`completed` the value of `swapchainFence->GetCompletedValue()`.
`fenceWaitObserved idx v` records that the begin block only proceeds once
the CPU has observed the completed value to be `≥ v`, where `v` is the
stored fence value of the acquired image `idx` (zero wait if already
reached). -/
def renderIteration (s : RenderState) (idx completed : Nat) : FrameIteration :=
  let prevFenceValue := s.fv s.frameIndex
  let currFenceValue := s.fv idx
  let s' : RenderState := { (s.setFv idx (prevFenceValue + 1)) with frameIndex := idx }
  { trace := [ .acquireImage idx,
      .fenceWaitObserved idx currFenceValue,
      .storeFenceValue idx (prevFenceValue + 1),
      .resetCommandAlloc idx,
      .resetCommandList idx,
      .recordDraw idx,
      .closeCommandList idx,
      .executeCommandList idx,
      .present,
      .signalFence (s'.fv s'.frameIndex) ]
    state := s'
    observedCompleted := max completed currFenceValue }

/-- **C2**: In every frame iteration, the command allocator and command
list that are `Reset` are those of slot `idx`, the image index returned by
the swapchain for this frame (not a round-robin counter), and the resets
occur only after the begin block has observed
`GetCompletedValue() ≥ swapchainFenceValues[idx]` (the value stored for
that slot's last use): the wait observation is at position 1 of the trace,
every reset lies strictly later, and the observed completed value is at
least the slot's stored fence value. -/
theorem commandReset_only_after_fence_wait (s : RenderState) (idx completed : Nat) :
    (renderIteration s idx completed).trace.get? 1 =
      some (.fenceWaitObserved idx (s.fv idx)) ∧
    (renderIteration s idx completed).trace.get? 3 =
      some (.resetCommandAlloc idx) ∧
    (renderIteration s idx completed).trace.get? 4 =
      some (.resetCommandList idx) ∧
    (∀ m i, (renderIteration s idx completed).trace.get? m =
        some (.resetCommandAlloc i) ∨
      (renderIteration s idx completed).trace.get? m =
        some (.resetCommandList i) → 1 < m ∧ i = idx) ∧
    s.fv idx ≤ (renderIteration s idx completed).observedCompleted := by
  refine ⟨rfl, rfl, rfl, ?_, Nat.le_max_right _ _⟩
  intro m i h
  rcases h with h | h <;>
    rcases m with _|_|_|_|_|_|_|_|_|_|m <;>
    simp [renderIteration] at h <;> omega

/-- **C3, counterexample**: in the round-robin run, at iteration 4 the
acquired slot is 0 and its stored fence value before this use is 1, but the
fence-signal enqueued by the submit/present step carries value 4, not
1 + 1 = 2. The new fence value is not "the value stored for that slot
before this use, incremented by one". -/
theorem submitSignal_not_slotStored_succ :
    (stateAfter (fun _ => 0) 3).fv 0 = 1 ∧
    signalValueAt (fun _ => 0) 4 = 4 ∧
    signalValueAt (fun _ => 0) 4 ≠ (stateAfter (fun _ => 0) 3).fv 0 + 1 := by decide

theorem fv_setFv_self (s : RenderState) {j : Nat} (v : Nat) (hj : j < 3) :
    (s.setFv j v).fv j = v := by
  rcases j with _|_|_|j <;> first | rfl | omega

/-- **C3, amended**: for every frame, the submit/present step enqueues the
recorded command buffer on the single graphics queue, then `Present`, then
a fence-signal request carrying the slot's new fence value — which equals
the fence value stored for the *previously used* slot
(`swapchainFenceValues[swapchainFrameIndex]` read before the index update)
incremented by one — and no CPU fence-wait occurs anywhere in or after the
submit/present step. -/
theorem submitPresent_signal_prevSlot_succ (s : RenderState) (idx completed : Nat)
    (hidx : idx < 3) :
    (renderIteration s idx completed).trace.get? 7 =
      some (.executeCommandList idx) ∧
    (renderIteration s idx completed).trace.get? 8 = some .present ∧
    (renderIteration s idx completed).trace.get? 9 =
      some (.signalFence (s.fv s.frameIndex + 1)) ∧
    (∀ m i v, 7 ≤ m →
      (renderIteration s idx completed).trace.get? m ≠
        some (.fenceWaitObserved i v)) := by
  refine ⟨rfl, rfl, ?_, ?_⟩
  · show some (RenderEvent.signalFence ((s.setFv idx (s.fv s.frameIndex + 1)).fv idx)) = _
    rw [fv_setFv_self s _ hidx]
  · intro m i v hm
    rcases m with _|_|_|_|_|_|_|_|_|_|m
    all_goals simp [renderIteration]
    all_goals omega

/-- Witness for C3 (amended): concrete instantiation at the initial state,
slot 0, completed value 0. -/
theorem submitPresent_signal_prevSlot_succ_witness :
    (renderIteration initRenderState 0 0).trace.get? 9 =
      some (.signalFence (initRenderState.fv initRenderState.frameIndex + 1)) ∧
    (renderIteration initRenderState 0 0).trace.get? 7 =
      some (.executeCommandList 0) := by
  have h := submitPresent_signal_prevSlot_succ initRenderState 0 0 (by decide)
  exact ⟨h.2.2.1, h.1⟩

/-! ## GenerateMipMaps and SubmitTextureToGPU (mainDX12.cpp)

```cpp
void GenerateMipMaps(SA::Vec2ui _extent, std::vector<char>& _data,
    uint32_t& _outMipLevels, uint32_t& _outTotalSize,
    std::vector<SA::Vec2ui>& _outExtents, uint32_t _channelNum,
    uint32_t _layerNum = 1u)
{
  _outMipLevels = (uint32_t)std::floor(std::log2(max(_extent.x, _extent.y))) + 1;
  for (uint32_t i = 0u; i < _outMipLevels; ++i) {
    _outExtents[i] = _extent;
    _outTotalSize += _extent.x * _extent.y * _channelNum * _layerNum * sizeof(stbi_uc);
    if (_extent.x > 1) _extent.x >>= 1;
    if (_extent.y > 1) _extent.y >>= 1;
  }
  _data.resize(_outTotalSize);
  ...
}
```
-/

/-- One conditional halving
`if (_extent.x > 1) _extent.x >>= 1;` of a single dimension. -/
def halveDim (x : Nat) : Nat := if 1 < x then x / 2 else x

/-- Conditional halving of both dimensions of an extent. -/
def halveExtent (e : Nat × Nat) : Nat × Nat := (halveDim e.1, halveDim e.2)

/-- `_outMipLevels = floor(log2(max(x, y))) + 1`. The `double` computation
is exact for `uint32_t` inputs, so `floor(log2 n) = Nat.log2 n` for
`n ≥ 1`. -/
def generateMipLevels (w h : Nat) : Nat := Nat.log2 (max w h) + 1

/-- The extents side of the `Compute Total Size & extents` loop:
`_outExtents[i] = _extent;` followed by the conditional halving, run for
`n` iterations. -/
def mipExtentsLoop : Nat → Nat × Nat → List (Nat × Nat)
  | 0, _ => []
  | n + 1, e => e :: mipExtentsLoop n (halveExtent e)

/-- `_outExtents` as computed by `GenerateMipMaps` for a `w × h` image. -/
def generateMipExtents (w h : Nat) : List (Nat × Nat) :=
  mipExtentsLoop (generateMipLevels w h) (w, h)

/-- The size side of the `Compute Total Size & extents` loop:
`_outTotalSize += _extent.x * _extent.y * _channelNum * _layerNum * sizeof(stbi_uc);`
with `sizeof(stbi_uc) = 1`, run for `n` iterations starting from the
incoming accumulator `acc` (the loop adds onto the caller-supplied value
with `+=`). -/
def mipTotalSizeLoop (C L : Nat) : Nat → Nat × Nat → Nat → Nat
  | 0, _, acc => acc
  | n + 1, e, acc => mipTotalSizeLoop C L n (halveExtent e) (acc + e.1 * e.2 * C * L)

/-- `_outTotalSize` after `GenerateMipMaps` on a `w × h` image with
`_channelNum = C`, `_layerNum = L`, when the caller-supplied
`_outTotalSize` held `init` on entry. -/
def generateMipTotalSize (w h C L init : Nat) : Nat :=
  mipTotalSizeLoop C L (generateMipLevels w h) (w, h) init

/-- `_data.size()` after `_data.resize(_outTotalSize)` in
`GenerateMipMaps`. -/
def generateMipDataLength (w h C L init : Nat) : Nat :=
  generateMipTotalSize w h C L init

theorem mipTotalSizeLoop_acc (C L n : Nat) :
    ∀ (e : Nat × Nat) (acc : Nat),
      mipTotalSizeLoop C L n e acc = acc + mipTotalSizeLoop C L n e 0 := by
  induction n with
  | zero => intro e acc; simp [mipTotalSizeLoop]
  | succ n ih =>
    intro e acc
    show mipTotalSizeLoop C L n (halveExtent e) (acc + e.1 * e.2 * C * L) =
      acc + mipTotalSizeLoop C L n (halveExtent e) (0 + e.1 * e.2 * C * L)
    rw [ih, ih (halveExtent e) (0 + e.1 * e.2 * C * L)]
    omega

/-- **C10**: `GenerateMipMaps` accumulates the chain size into the
caller-supplied `_outTotalSize` with `+=` without zeroing it first: for any
incoming value `init`, both the reported total size and the length
`_data` is resized to equal `init` plus the true mip-chain byte size, so
they equal the true size exactly when the caller passes `init = 0` (as the
texture-loading call sites in `main` do via `uint32_t totalSize = 0u;`). -/
theorem generateMipMaps_totalSize_accumulates (w h C L init : Nat) :
    generateMipTotalSize w h C L init = init + generateMipTotalSize w h C L 0 ∧
    generateMipDataLength w h C L init = init + generateMipTotalSize w h C L 0 ∧
    (generateMipTotalSize w h C L init = generateMipTotalSize w h C L 0 ↔
      init = 0) := by
  have h := mipTotalSizeLoop_acc C L (generateMipLevels w h) (w, h) init
  refine ⟨h, h, ?_⟩
  simp only [generateMipTotalSize]
  rw [h]
  omega

theorem halveDim_iterate (i : Nat) : ∀ x : Nat, 1 ≤ x →
    halveDim^[i] x = max 1 (x / 2 ^ i) := by
  induction i with
  | zero =>
    intro x hx
    simp [Nat.max_eq_right hx]
  | succ i ih =>
    intro x hx
    rw [Function.iterate_succ_apply]
    by_cases h1 : 1 < x
    · have hd : halveDim x = x / 2 := by simp [halveDim, h1]
      rw [hd, ih (x / 2) (by omega), Nat.div_div_eq_div_mul, pow_succ, mul_comm 2 (2 ^ i)]
    · have hx1 : x = 1 := by omega
      subst hx1
      have hd : halveDim 1 = 1 := by simp [halveDim]
      rw [hd, ih 1 (le_refl 1)]
      have h2 : 1 / 2 ^ i ≤ 1 := Nat.div_le_self _ _
      have h3 : 1 / 2 ^ (i + 1) ≤ 1 := Nat.div_le_self _ _
      omega

theorem halveExtent_iterate (i : Nat) (e : Nat × Nat) :
    halveExtent^[i] e = (halveDim^[i] e.1, halveDim^[i] e.2) := by
  induction i generalizing e with
  | zero => simp
  | succ i ih =>
    rw [Function.iterate_succ_apply, ih, Function.iterate_succ_apply,
      Function.iterate_succ_apply]
    rfl

theorem mipTotalSizeLoop_eq_sum (C L : Nat) : ∀ (n : Nat) (e : Nat × Nat),
    mipTotalSizeLoop C L n e 0 =
      ((List.range n).map (fun i =>
        (halveExtent^[i] e).1 * (halveExtent^[i] e).2 * C * L)).sum := by
  intro n
  induction n with
  | zero => intro e; simp [mipTotalSizeLoop]
  | succ n ih =>
    intro e
    show mipTotalSizeLoop C L n (halveExtent e) (0 + e.1 * e.2 * C * L) = _
    rw [mipTotalSizeLoop_acc, ih (halveExtent e), List.range_succ_eq_map,
      List.map_cons, List.map_map, List.sum_cons]
    have hfun : ((fun i => (halveExtent^[i] e).1 * (halveExtent^[i] e).2 * C * L) ∘
        Nat.succ) = (fun i => (halveExtent^[i] (halveExtent e)).1 *
          (halveExtent^[i] (halveExtent e)).2 * C * L) := by
      funext i
      simp [Function.comp, Function.iterate_succ_apply]
    rw [hfun]
    simp [Function.iterate_zero_apply]

/-- The mip-chain size formula as the claim states it (spec wording):
sum over levels `i = 0 .. mipLevels-1` of
`⌈W / 2^i⌉ × ⌈H / 2^i⌉ × C`, each dimension clamped to at least 1. -/
def ceilMipChainSize (w h C : Nat) : Nat :=
  ((List.range (generateMipLevels w h)).map (fun i =>
    max 1 ((w + 2 ^ i - 1) / 2 ^ i) * max 1 ((h + 2 ^ i - 1) / 2 ^ i) * C)).sum

/-- The mip-chain size formula with flooring division, which is what the
code's `>>= 1` halving computes. -/
def floorMipChainSize (w h C : Nat) : Nat :=
  ((List.range (generateMipLevels w h)).map (fun i =>
    max 1 (w / 2 ^ i) * max 1 (h / 2 ^ i) * C)).sum

/-- **C5, counterexample**: for a 5 × 1 image with 1 channel the code's
total mip-chain byte size is 5 + 2 + 1 = 8 (the dimensions are halved with
flooring), while the claimed ceiling formula gives 5 + 3 + 2 = 10. -/
theorem generateMipLevels_five_one : generateMipLevels 5 1 = 3 := by
  simp [generateMipLevels, Nat.log2]

theorem mipChainSize_ceil_counterexample :
    generateMipTotalSize 5 1 1 1 0 = 8 ∧ ceilMipChainSize 5 1 1 = 10 ∧
    generateMipTotalSize 5 1 1 1 0 ≠ ceilMipChainSize 5 1 1 := by
  rw [generateMipTotalSize, ceilMipChainSize, generateMipLevels_five_one]
  decide

/-- **C5, amended**: for every `W × H` image with `C` channels
(`W, H ≥ 1`), the total mip-chain byte size computed by `GenerateMipMaps`
(with `_layerNum = 1` and `_outTotalSize` entering as 0) equals the sum
over levels `i = 0 .. mipLevels-1` of
`⌊W / 2^i⌋ * ⌊H / 2^i⌋ * C`, with each dimension clamped so it is at
least 1. -/
theorem generateMipMaps_totalSize_eq_floorFormula (w h C : Nat)
    (hw : 1 ≤ w) (hh : 1 ≤ h) :
    generateMipTotalSize w h C 1 0 = floorMipChainSize w h C := by
  rw [generateMipTotalSize, mipTotalSizeLoop_eq_sum, floorMipChainSize]
  congr 1
  apply List.map_congr_left
  intro i _
  rw [halveExtent_iterate]
  simp only [halveDim_iterate i w hw, halveDim_iterate i h hh]
  ring

/-- Witness for C5 (amended) at the counterexample's input `W = 5`,
`H = 1`, `C = 1`: the code's size 8 matches the floor formula. -/
theorem generateMipMaps_totalSize_eq_floorFormula_witness :
    generateMipTotalSize 5 1 1 1 0 = floorMipChainSize 5 1 1 ∧
    floorMipChainSize 5 1 1 = 8 := by
  refine ⟨generateMipMaps_totalSize_eq_floorFormula 5 1 1 (by decide) (by decide), ?_⟩
  rw [floorMipChainSize, generateMipLevels_five_one]
  decide

/-! ## The copy loop of `SubmitTextureToGPU` (mainDX12.cpp)

```cpp
UINT64 offset = 0u;
for (UINT16 i = 0; i < resDesc.MipLevels; ++i) {
  // src.PlacedFootprint.Offset = offset; dst.SubresourceIndex = i;
  cmdLists[0]->CopyTextureRegion(&dst, 0u, 0u, 0u, &src, nullptr);
  offset += _extents[i].x * _extents[i].y * _channelNum;
}
```

Each recorded copy is modelled as the pair
`(subresource index, staging-buffer byte offset)`. At every call site the
texture's `MipLevels` equals `_extents.size()`.
-/

/-- The copy loop of `SubmitTextureToGPU`, recording `n` copies starting
at level `i` with running byte offset `off`. -/
def texCopyLoop (extents : List (Nat × Nat)) (C : Nat) : Nat → Nat → Nat → List (Nat × Nat)
  | 0, _, _ => []
  | n + 1, i, off =>
    (i, off) :: texCopyLoop extents C n (i + 1)
      (off + (extents.getD i (0, 0)).1 * (extents.getD i (0, 0)).2 * C)

/-- The copy commands recorded by `SubmitTextureToGPU` for a texture with
`mips` mip levels, per-level extents `extents` and `_channelNum = C`. -/
def submitTextureCopies (mips : Nat) (extents : List (Nat × Nat)) (C : Nat) :
    List (Nat × Nat) :=
  texCopyLoop extents C mips 0 0

/-- The claimed byte offset of mip level `i`: the running sum of
`width_j * height_j * channelCount` over all prior levels `j < i`. -/
def levelOffset (extents : List (Nat × Nat)) (C i : Nat) : Nat :=
  ((List.range i).map (fun k =>
    (extents.getD k (0, 0)).1 * (extents.getD k (0, 0)).2 * C)).sum

theorem levelOffset_succ (extents : List (Nat × Nat)) (C i : Nat) :
    levelOffset extents C (i + 1) =
      levelOffset extents C i +
        (extents.getD i (0, 0)).1 * (extents.getD i (0, 0)).2 * C := by
  simp [levelOffset, List.range_succ]

theorem texCopyLoop_length (extents : List (Nat × Nat)) (C : Nat) :
    ∀ (n i off : Nat), (texCopyLoop extents C n i off).length = n := by
  intro n
  induction n with
  | zero => intro i off; rfl
  | succ n ih => intro i off; simp [texCopyLoop, ih]

theorem texCopyLoop_get? (extents : List (Nat × Nat)) (C : Nat) :
    ∀ (n i j : Nat), j < n →
      (texCopyLoop extents C n i (levelOffset extents C i)).get? j =
        some (i + j, levelOffset extents C (i + j)) := by
  intro n
  induction n with
  | zero => intro i j hj; omega
  | succ n ih =>
    intro i j hj
    cases j with
    | zero => simp [texCopyLoop]
    | succ j =>
      show ((i, levelOffset extents C i) :: texCopyLoop extents C n (i + 1) _).get? (j + 1) = _
      rw [List.get?_cons_succ, ← levelOffset_succ, ih (i + 1) j (by omega)]
      have : i + 1 + j = i + (j + 1) := by omega
      rw [this]

theorem mipExtentsLoop_length : ∀ (n : Nat) (e : Nat × Nat),
    (mipExtentsLoop n e).length = n := by
  intro n
  induction n with
  | zero => intro e; rfl
  | succ n ih => intro e; simp [mipExtentsLoop, ih]

theorem mipExtentsLoop_get? : ∀ (n : Nat) (e : Nat × Nat) (i : Nat), i < n →
    (mipExtentsLoop n e).get? i = some (halveExtent^[i] e) := by
  intro n
  induction n with
  | zero => intro e i hi; omega
  | succ n ih =>
    intro e i hi
    cases i with
    | zero => simp [mipExtentsLoop]
    | succ i =>
      show (e :: mipExtentsLoop n (halveExtent e)).get? (i + 1) = _
      rw [List.get?_cons_succ, ih (halveExtent e) i (by omega),
        ← Function.iterate_succ_apply]

theorem max_one_half_clamp (a : Nat) : max 1 (max 1 a / 2) = max 1 (a / 2) := by
  rcases Nat.eq_zero_or_pos a with h | h
  · subst h; decide
  · rw [Nat.max_eq_right h]

/-- **C4**: for every texture upload, `SubmitTextureToGPU` records one copy
command per mip level `i` (subresource index `i`), reading the staging
buffer at byte offset equal to the running sum of
`width_j * height_j * channelCount` over all prior levels `j < i`; and
`GenerateMipMaps` computes the mip count as `⌊log2 (max w h)⌋ + 1` (the
count `L` satisfies `2^(L-1) ≤ max w h < 2^L`) with each level's
dimensions halved from the previous level and clamped at a minimum of 1. -/
theorem submitTexture_offsets_and_mipChain (extents : List (Nat × Nat))
    (C w h : Nat) (hw : 1 ≤ w) (hh : 1 ≤ h) :
    (submitTextureCopies extents.length extents C).length = extents.length ∧
    (∀ j, j < extents.length →
      (submitTextureCopies extents.length extents C).get? j =
        some (j, levelOffset extents C j)) ∧
    generateMipLevels w h = Nat.log2 (max w h) + 1 ∧
    2 ^ (generateMipLevels w h - 1) ≤ max w h ∧
    max w h < 2 ^ generateMipLevels w h ∧
    (generateMipExtents w h).length = generateMipLevels w h ∧
    (generateMipExtents w h).get? 0 = some (w, h) ∧
    (∀ i, i + 1 < generateMipLevels w h →
      (generateMipExtents w h).getD (i + 1) (0, 0) =
        (max 1 (((generateMipExtents w h).getD i (0, 0)).1 / 2),
         max 1 (((generateMipExtents w h).getD i (0, 0)).2 / 2))) := by
  have hmax : max w h ≠ 0 := by omega
  refine ⟨texCopyLoop_length extents C _ 0 0, ?_, rfl, ?_, ?_, ?_, ?_, ?_⟩
  · intro j hj
    have h0 := texCopyLoop_get? extents C extents.length 0 j hj
    simpa [levelOffset, submitTextureCopies] using h0
  · rw [generateMipLevels, Nat.add_sub_cancel, Nat.log2_eq_log_two]
    exact Nat.pow_log_le_self 2 hmax
  · rw [generateMipLevels, Nat.log2_eq_log_two]
    exact Nat.lt_pow_succ_log_self (by norm_num) _
  · exact mipExtentsLoop_length _ _
  · rw [generateMipExtents,
      mipExtentsLoop_get? _ _ 0 (by rw [generateMipLevels]; omega)]
    simp
  · intro i hi
    have hlen : (generateMipExtents w h).length = generateMipLevels w h :=
      mipExtentsLoop_length _ _
    have hgi : (generateMipExtents w h).get? i = some (halveExtent^[i] (w, h)) :=
      mipExtentsLoop_get? _ _ i (by omega)
    have hgi1 : (generateMipExtents w h).get? (i + 1) =
        some (halveExtent^[i + 1] (w, h)) :=
      mipExtentsLoop_get? _ _ (i + 1) hi
    have hd : ∀ j v, (generateMipExtents w h).get? j = some v →
        (generateMipExtents w h).getD j (0, 0) = v := by
      intro j v hv
      unfold List.getD
      simp [List.get?_eq_getElem?] at hv
      simp [hv]
    rw [hd i _ hgi, hd (i + 1) _ hgi1, halveExtent_iterate, halveExtent_iterate,
      halveDim_iterate i w hw, halveDim_iterate i h hh,
      halveDim_iterate (i + 1) w hw, halveDim_iterate (i + 1) h hh]
    have hw2 : w / 2 ^ (i + 1) = w / 2 ^ i / 2 := by
      rw [Nat.div_div_eq_div_mul, pow_succ]
    have hh2 : h / 2 ^ (i + 1) = h / 2 ^ i / 2 := by
      rw [Nat.div_div_eq_div_mul, pow_succ]
    rw [hw2, hh2, max_one_half_clamp, max_one_half_clamp]

/-- Witness for C4: a 4 × 4 texture with 4 channels and mip extents
`[(4,4), (2,2), (1,1)]`: the third copy reads at byte offset
4·4·4 + 2·2·4 = 80 and targets subresource 2, and the extent chain starts
at (4, 4). -/
theorem submitTexture_offsets_and_mipChain_witness :
    (submitTextureCopies ([(4, 4), (2, 2), (1, 1)] : List (Nat × Nat)).length
        [(4, 4), (2, 2), (1, 1)] 4).get? 2 =
      some (2, levelOffset [(4, 4), (2, 2), (1, 1)] 4 2) ∧
    levelOffset [(4, 4), (2, 2), (1, 1)] 4 2 = 80 ∧
    (generateMipExtents 4 4).get? 0 = some (4, 4) := by
  have h := submitTexture_offsets_and_mipChain [(4, 4), (2, 2), (1, 1)] 4 4 4
    (by decide) (by decide)
  exact ⟨h.2.1 2 (by decide), by decide, h.2.2.2.2.2.2.1⟩

/-! ## SubmitBufferToGPU (mainDX12.cpp)

```cpp
bool SubmitBufferToGPU(MComPtr<ID3D12Resource> _gpuBuffer, uint64_t _size,
    const void* _data, D3D12_RESOURCE_STATES _stateAfter)
{
  // CreateCommittedResource(staging, Width = _size); on FAILED: log, return false.
  // Map / memcpy(_size) / Unmap — results unchecked.
  // CopyBufferRegion(_gpuBuffer, 0, stagingBuffer, 0, _size);
  // ResourceBarrier; Close; ExecuteCommandLists; WaitDeviceIdle; Reset; return true.
}
```
-/

/-- GPU commands recorded by `SubmitBufferToGPU`. -/
inductive BufferUploadCmd where
  | copyBufferRegion (size : Nat)
  | transitionBarrier
  | closeList
  | executeLists
deriving DecidableEq, Repr

/-- Observable result of one `SubmitBufferToGPU` call: the `bool` return
value and the commands recorded on `cmdLists[0]`. -/
structure BufferUploadRun where
  returnValue : Bool
  recorded : List BufferUploadCmd
deriving DecidableEq, Repr

/-- Embedding of `SubmitBufferToGPU`. `stagingCreateOk` abstracts the
`CreateCommittedResource` HRESULT; `_srcIsNull` marks a null `_data`
pointer and `_mapOk` the result of `Map`. The function's control flow
never reads `_size`, `_srcIsNull` or `_mapOk` for validation: there is no
zero-size or null-pointer check and `Map`/`Unmap` results are unchecked. -/
def submitBufferToGPU (stagingCreateOk : Bool) (size : Nat)
    (_srcIsNull _mapOk : Bool) : BufferUploadRun :=
  if stagingCreateOk = false then { returnValue := false, recorded := [] }
  else { returnValue := true
         recorded := [.copyBufferRegion size, .transitionBarrier, .closeList,
           .executeLists] }

/-- **C7, counterexample**: `SubmitBufferToGPU` called with `_size = 0`
and a null source (staging-buffer creation succeeding) does not fail with
any invalid-argument error: it returns `true` and records a copy command. -/
theorem submitBufferToGPU_zeroSize_succeeds :
    (submitBufferToGPU true 0 true true).returnValue = true ∧
    (submitBufferToGPU true 0 true true).recorded ≠ [] ∧
    (submitBufferToGPU true 0 true true).recorded.contains
      (.copyBufferRegion 0) = true := by decide

/-- **C7, amended**: `SubmitBufferToGPU` performs no validation of
zero-length or null input: for every size (including 0) and any source
nullness, it records the copy, barrier, close and execute commands and
returns `true`; its only failure path is staging-buffer creation failure,
on which it returns `false` having recorded no GPU command. -/
theorem submitBufferToGPU_no_input_validation (size : Nat)
    (srcIsNull mapOk : Bool) :
    submitBufferToGPU false size srcIsNull mapOk =
      { returnValue := false, recorded := [] } ∧
    submitBufferToGPU true size srcIsNull mapOk =
      { returnValue := true
        recorded := [.copyBufferRegion size, .transitionBarrier, .closeList,
          .executeLists] } :=
  ⟨rfl, rfl⟩

/-! ## Error-handling shape of the Swapchain Begin block (mainDX12.cpp) -/

/-- The possible outcomes of the frame-begin wait, in the vocabulary used
by the specification. The embedded code never produces `acquireTimeout` or
`surfaceLost`. -/
inductive BeginOutcome where
  | ok (waitedFor : Option Nat)
  | exitFailure
  | acquireTimeout
  | surfaceLost
deriving DecidableEq, Repr

/-- The timeout argument of
`WaitForSingleObjectEx(swapchainFenceEvent, INFINITE, FALSE)`:
`none` models `INFINITE`. The block takes no caller-supplied deadline. -/
def swapchainBeginWaitTimeout : Option Nat := none

/-- Outcome of the `Swapchain Begin` block. `setEventOk` abstracts the
`SetEventOnCompletion` HRESULT; on its failure the code logs and returns
`EXIT_FAILURE` from `main`. -/
def swapchainBeginOutcome (s : RenderState) (idx completed : Nat)
    (setEventOk : Bool) : BeginOutcome :=
  let currFenceValue := s.fv idx
  if completed < currFenceValue then
    if setEventOk then .ok (some currFenceValue) else .exitFailure
  else .ok none

/-- **C8, counterexample**: with the fence stuck at 0 after three
round-robin iterations (so the wait would outlast any deadline), the begin
block still completes with an unbounded wait (`INFINITE`, no
caller-supplied deadline) rather than failing with `AcquireTimeout`, and
no `SurfaceLost` outcome exists anywhere in its control flow. -/
theorem swapchainBegin_no_timeout_counterexample :
    swapchainBeginOutcome (stateAfter (fun _ => 0) 3) 0 0 true =
      .ok (some 1) ∧
    swapchainBeginOutcome (stateAfter (fun _ => 0) 3) 0 0 true ≠
      .acquireTimeout ∧
    swapchainBeginOutcome (stateAfter (fun _ => 0) 3) 0 0 true ≠
      .surfaceLost ∧
    swapchainBeginWaitTimeout = none := by decide

/-- **C8, amended**: the frame-begin wait on the swapchain fence is
unbounded — `WaitForSingleObjectEx` is passed `INFINITE` and there is no
caller-supplied deadline — and the block never fails with `AcquireTimeout`
or `SurfaceLost`; its only failure path is `SetEventOnCompletion` failing
(taken exactly when a wait is required and the call fails), which exits
the process with `EXIT_FAILURE` instead of returning a recoverable error. -/
theorem swapchainBegin_wait_unbounded (s : RenderState) (idx completed : Nat)
    (setEventOk : Bool) :
    swapchainBeginWaitTimeout = none ∧
    swapchainBeginOutcome s idx completed setEventOk ≠ .acquireTimeout ∧
    swapchainBeginOutcome s idx completed setEventOk ≠ .surfaceLost ∧
    (swapchainBeginOutcome s idx completed setEventOk = .exitFailure ↔
      completed < s.fv idx ∧ setEventOk = false) := by
  refine ⟨rfl, ?_, ?_, ?_⟩ <;>
    · unfold swapchainBeginOutcome
      by_cases hcv : completed < s.fv idx <;> cases setEventOk <;> simp [hcv]

/-! ## Error-propagation policy (mainDX12.cpp)

The texture-loading sequence of `main` (Resources / Textures section):
`GenerateMipMaps` (a `void` function: an `stbir_resize_uint8_linear`
failure is logged and the function merely `return`s), then
`CreateCommittedResource` (checked: log + `return EXIT_FAILURE`), then
`SubmitTextureToGPU` (checked: log + `return EXIT_FAILURE`).
-/

/-- Steps of the texture-loading sequence observable from `main`. -/
inductive LoadStep where
  | generateMips
  | logMipResizeError
  | createTexture
  | submitTexture
  | logAndExitFailure
deriving DecidableEq, Repr

/-- `GenerateMipMaps` steps: a resize failure is logged, then the `void`
function returns normally — the caller cannot observe the failure. -/
def generateMipMapsSteps (resizeOk : Bool) : List LoadStep :=
  if resizeOk then [.generateMips] else [.generateMips, .logMipResizeError]

/-- The texture-loading sequence of `main`: `GenerateMipMaps` (failure
unobservable), then texture creation and submit, each checked at the call
site with log + `EXIT_FAILURE`. -/
def textureLoadSteps (resizeOk createOk submitOk : Bool) : List LoadStep :=
  generateMipMapsSteps resizeOk ++
    if createOk then
      .createTexture ::
        (if submitOk then [.submitTexture] else [.submitTexture, .logAndExitFailure])
    else [.createTexture, .logAndExitFailure]

/-- **C9, counterexample**: when mip-map resizing fails inside
`GenerateMipMaps`, the failure is only logged: the load proceeds to create
and submit the texture and the process does not terminate — the first
failure does not abort startup, contradicting the claimed propagation
policy. -/
theorem mipResizeFailure_not_aborted :
    (textureLoadSteps false true true).contains .logMipResizeError = true ∧
    (textureLoadSteps false true true).contains .logAndExitFailure = false ∧
    (textureLoadSteps false true true).contains .submitTexture = true := by decide

/-- **C9, amended**: texture creation and submit failures are checked
immediately at the call site and abort with a logged message and
`EXIT_FAILURE`; but not every fallible operation is: a mip-resize failure
inside `GenerateMipMaps` is only logged (the function returns `void`) and
loading continues, and `SubmitBufferToGPU`'s `Map` result is unchecked
(its outcome is identical whether `Map` succeeds or fails). -/
theorem errorPropagation_policy (resizeOk : Bool) (size : Nat)
    (stagingOk srcIsNull : Bool) :
    (textureLoadSteps resizeOk false true).getLast? = some .logAndExitFailure ∧
    (textureLoadSteps resizeOk true false).getLast? = some .logAndExitFailure ∧
    (textureLoadSteps false true true).contains .logAndExitFailure = false ∧
    submitBufferToGPU stagingOk size srcIsNull false =
      submitBufferToGPU stagingOk size srcIsNull true := by
  refine ⟨?_, ?_, by decide, rfl⟩ <;> cases resizeOk <;> decide

/-! ## File structure of the three renderers (claim C6)

Inventories of the initialization sections and main-loop bodies of the
three renderers, enumerated from the source:
* mainDX12.cpp: Factory/Device, Swapchain, Commands, Scene Resources,
  Pipeline, Resources (mesh and texture uploads via `SubmitBufferToGPU` /
  `SubmitTextureToGPU`); main loop with Inputs, Fixed Update, and a Render
  block that records, executes, presents and signals every iteration.
* mainVK.cpp, first document (Vulkan renderer): Instance, Surface, Device,
  Swapchain, Commands, Scene Resources (depth texture creation only — no
  mesh or texture data is uploaded anywhere in the file), Render Pass,
  Framebuffers, DescriptorSet, Pipeline; its `// Loop { }` block is empty.
* mainVK.cpp, second document (second DX12 renderer): Factory, Device,
  Swapchain, Commands, Resources (mesh and texture uploads); no pipeline
  construction; its loop polls inputs (`glfwPollEvents`, escape key) and
  logs end-of-frame, recording no rendering commands.
-/

/-- Renderer initialization activities named by the claim. -/
inductive SetupPhase where
  | deviceDiscovery
  | swapchainCreation
  | resourceUpload
  | pipelineConstruction
deriving DecidableEq, Repr

/-- Per-iteration actions of a renderer's main loop. -/
inductive LoopAction where
  | pollInputs
  | updateScene
  | recordCommands
  | submitCommands
  | presentImage
deriving DecidableEq, Repr

/-- What one source file's renderer does: its initialization phases and
the body of its main loop. -/
structure RendererFile where
  setupPhases : List SetupPhase
  loopBody : List LoopAction
deriving DecidableEq, Repr

/-- The complete DX12 renderer (mainDX12.cpp). -/
def dx12Renderer : RendererFile :=
  { setupPhases := [.deviceDiscovery, .swapchainCreation, .resourceUpload,
      .pipelineConstruction]
    loopBody := [.pollInputs, .updateScene, .recordCommands, .submitCommands,
      .presentImage] }

/-- The Vulkan renderer (mainVK.cpp, first document). -/
def vkRenderer : RendererFile :=
  { setupPhases := [.deviceDiscovery, .swapchainCreation, .pipelineConstruction]
    loopBody := [] }

/-- The second DX12 renderer (mainVK.cpp, second document). -/
def dx12RendererV2 : RendererFile :=
  { setupPhases := [.deviceDiscovery, .swapchainCreation, .resourceUpload]
    loopBody := [.pollInputs] }

/-- The property C6 asserts of every renderer file: all four setup phases
plus a loop that records and submits rendering commands each iteration. -/
def performsAllPhasesAndRenders (r : RendererFile) : Bool :=
  r.setupPhases.contains .deviceDiscovery &&
  r.setupPhases.contains .swapchainCreation &&
  r.setupPhases.contains .resourceUpload &&
  r.setupPhases.contains .pipelineConstruction &&
  r.loopBody.contains .recordCommands &&
  r.loopBody.contains .submitCommands

/-- **C6, counterexample**: only the complete DX12 renderer performs all
five activities. The Vulkan renderer's main-loop block is empty (it
records and submits nothing, and uploads no mesh/texture resources), and
the second DX12 renderer constructs no pipeline and its loop only polls
inputs. -/
theorem not_every_renderer_complete :
    performsAllPhasesAndRenders dx12Renderer = true ∧
    performsAllPhasesAndRenders vkRenderer = false ∧
    performsAllPhasesAndRenders dx12RendererV2 = false ∧
    vkRenderer.loopBody = [] ∧
    dx12RendererV2.loopBody.contains .recordCommands = false := by decide

/-- **C6, amended**: all three renderers perform device discovery and
swapchain creation; the complete DX12 renderer additionally performs
resource upload, pipeline construction and a per-frame render loop that
records and submits rendering commands each iteration; but the Vulkan
renderer (which does construct pipelines, yet uploads no mesh/texture
resources) has an empty main loop, and the second DX12 renderer (which
does upload resources) constructs no pipeline and only polls inputs in its
loop. -/
theorem renderer_phase_inventory :
    vkRenderer.setupPhases.contains .deviceDiscovery = true ∧
    dx12Renderer.setupPhases.contains .deviceDiscovery = true ∧
    dx12RendererV2.setupPhases.contains .deviceDiscovery = true ∧
    vkRenderer.setupPhases.contains .swapchainCreation = true ∧
    dx12Renderer.setupPhases.contains .swapchainCreation = true ∧
    dx12RendererV2.setupPhases.contains .swapchainCreation = true ∧
    performsAllPhasesAndRenders dx12Renderer = true ∧
    vkRenderer.setupPhases.contains .pipelineConstruction = true ∧
    vkRenderer.setupPhases.contains .resourceUpload = false ∧
    vkRenderer.loopBody = [] ∧
    dx12RendererV2.setupPhases.contains .resourceUpload = true ∧
    dx12RendererV2.setupPhases.contains .pipelineConstruction = false ∧
    dx12RendererV2.loopBody = [.pollInputs] := by decide

end FromVkToDX12
